import Mathlib

/-!
Verification of the signaling / HLS-recording layer of the webrtc_nextjs
repository against its natural-language specification.

The definitions below are a shallow embedding of:
* `src/server/socket-server.ts` — the socket handlers and the four global
  registries (`transports`, `producers`, `consumers`, `activeStreams`,
  `hlsRecorders`);
* `src/unnamed/part_004` (`ffmpeg-recorder-v2.ts`, class `HLSRecorderV2`) —
  the recording-bridge state and its `cleanup` / `stopRecording` /
  `startRecording` logic;
* `src/app/api/hls/[...path]/route.ts` — the HLS playback file handler.

JavaScript `Map`s are modelled as association lists in insertion order
(`set` replaces in place, `delete` filters the key out), JavaScript `Set`s
as duplicate-free lists in insertion order.  External engine calls
(mediasoup transport/producer/consumer creation, `router.canConsume`,
ffmpeg spawn) are modelled by oracle parameters for their success and by a
fresh-id counter for the identities they mint.
-/

namespace WebrtcHLS

/-! ### JavaScript `Map` as an association list (insertion order) -/

def mGet {α : Type} (m : List (String × α)) (k : String) : Option α :=
  match m with
  | [] => none
  | (k', v) :: rest => if k' == k then some v else mGet rest k

def mHas {α : Type} (m : List (String × α)) (k : String) : Bool :=
  (mGet m k).isSome

def mSet {α : Type} (m : List (String × α)) (k : String) (v : α) :
    List (String × α) :=
  match m with
  | [] => [(k, v)]
  | (k', v') :: rest =>
    if k' == k then (k, v) :: rest else (k', v') :: mSet rest k v

def mDel {α : Type} (m : List (String × α)) (k : String) :
    List (String × α) :=
  match m with
  | [] => []
  | (k', v) :: rest =>
    if k' == k then mDel rest k else (k', v) :: mDel rest k

def mValues {α : Type} (m : List (String × α)) : List α :=
  m.map Prod.snd

/-! ### JavaScript `Set` of strings (insertion order, no duplicates) -/

def sAdd (l : List String) (x : String) : List String :=
  if l.contains x then l else l ++ [x]

def sDel (l : List String) (x : String) : List String :=
  l.filter (fun y => y != x)

def sHas (l : List String) (x : String) : Bool :=
  l.contains x

/-! ### Data model of `socket-server.ts` -/

inductive MediaKind where
  | audio
  | video
deriving DecidableEq

/-- A mediasoup producer as far as the signaling layer observes it. -/
structure Producer where
  id : String
  kind : MediaKind
  paused : Bool
deriving DecidableEq

/-- Value stored in the `producers` map: `{ producer, producerId }`. -/
structure ProducerEntry where
  producer : Producer
  producerId : String
deriving DecidableEq

/-- A mediasoup consumer as far as the signaling layer observes it. -/
structure Consumer where
  id : String
  producerId : String
  kind : MediaKind
  paused : Bool
deriving DecidableEq

/-- Value stored in the `consumers` map: `{ consumer, consumer_Id }`. -/
structure ConsumerEntry where
  consumer : Consumer
  consumer_Id : String
deriving DecidableEq

/-- A WebRTC transport handle (only its identity matters here). -/
structure Transport where
  id : String
deriving DecidableEq

/-- An `HLSRecorder` object as seen from `socket-server.ts`; `rid` is the
construction identity (a fresh counter value per `new HLSRecorder`). -/
structure Recorder where
  streamKey : String
  rid : Nat
deriving DecidableEq

/-- Value stored in `activeStreams`: `{ streamers: Set, recorder? }`. -/
structure StreamGroup where
  streamers : List String
  recorder : Option Recorder
deriving DecidableEq

/-- The router handle; `rtpCapabilities` mirrors the (possibly absent)
capabilities object checked by the `rtpCapabilities` handler. -/
structure Router where
  rtpCapabilities : Option Nat
deriving DecidableEq

/-- The global mutable registries of `socket-server.ts`, plus fresh-id
counters standing for the identities minted by the engine (`nextId`) and by
`new HLSRecorder` (`nextRecorderId`). -/
structure ServerState where
  transports : List (String × Transport)
  producers : List (String × ProducerEntry)
  consumers : List (String × ConsumerEntry)
  activeStreams : List (String × StreamGroup)
  hlsRecorders : List (String × Recorder)
  socketCaps : List (String × Nat)
  nextId : Nat
  nextRecorderId : Nat
deriving DecidableEq

def emptyState : ServerState :=
  ⟨[], [], [], [], [], [], 0, 0⟩

/-- Replies sent through a handler's acknowledgment callback. -/
inductive Reply where
  | ok
  | okId (id : String)
  | error (msg : String)
  | caps (c : Nat)
  | transportOptions (id : String)
  | consumeData (id : String) (producerId : String) (kind : MediaKind)
  | startOk (streamId : String) (playlistUrl : Option String)
deriving DecidableEq

/-- Events broadcast with `io.emit` / `socket.broadcast.emit`.  The
constructor `producerGone` is the "producer gone" notification named by the
spec; it is part of the event vocabulary so that its (non-)emission can be
stated. -/
inductive Event where
  | newProducer (producerId : String) (socketId : String)
  | producerGone (producerId : String)
  | streamLive (streamId : String) (playlistUrl : Option String)
      (streamers : List String)
  | streamEnded (streamId : String)
deriving DecidableEq

/-- Result of running one socket handler: the new global state, the reply
passed to the callback (if any), the events emitted, and the `rid`s of the
recorders whose `stopRecording()` was invoked. -/
structure HOut where
  st : ServerState
  reply : Option Reply
  events : List Event
  stops : List Nat
deriving DecidableEq

/-! ### Handlers of `socket-server.ts` -/

/-- Handler `socket.on("healthCheck", ...)`: only logs; never calls the callback. -/
def onHealthCheck (s : ServerState) : HOut :=
  ⟨s, none, [], []⟩

/-- Handler `socket.on("rtpCapabilities", ...)`: returns the router capabilities,
but when the router is not initialized (or has no capabilities object) it
logs and returns without invoking the callback. -/
def onRtpCapabilities (router : Option Router) (s : ServerState) : HOut :=
  match router with
  | none => ⟨s, none, [], []⟩
  | some r =>
    match r.rtpCapabilities with
    | none => ⟨s, none, [], []⟩
    | some c => ⟨s, some (Reply.caps c), [], []⟩

/-- Handler `socket.on("createProducerTransport", ...)`; `ok` is the success oracle
for the engine call `createTransport(router)`. -/
def onCreateProducerTransport (s : ServerState) (id : String) (ok : Bool) :
    HOut :=
  let ts :=
    if mHas s.transports (id ++ "-producer") then
      mDel s.transports (id ++ "-producer")
    else s.transports
  if ok then
    let tid := "t" ++ toString s.nextId
    ⟨{ s with transports := mSet ts (id ++ "-producer") ⟨tid⟩,
              nextId := s.nextId + 1 },
     some (Reply.transportOptions tid), [], []⟩
  else
    ⟨{ s with transports := ts },
     some (Reply.error "Error creating producer transport"), [], []⟩

/-- Handler `socket.on("createConsumerTransport", ...)`. -/
def onCreateConsumerTransport (s : ServerState) (id : String) (ok : Bool) :
    HOut :=
  let ts :=
    if mHas s.transports (id ++ "-consumer") then
      mDel s.transports (id ++ "-consumer")
    else s.transports
  if ok then
    let tid := "t" ++ toString s.nextId
    ⟨{ s with transports := mSet ts (id ++ "-consumer") ⟨tid⟩,
              nextId := s.nextId + 1 },
     some (Reply.transportOptions tid), [], []⟩
  else
    ⟨{ s with transports := ts },
     some (Reply.error "Error creating consumer transport"), [], []⟩

/-- Handler `socket.on("connectProducerTransport", ...)`; `ok` is the success
oracle for `transport.connect`. -/
def onConnectProducerTransport (s : ServerState) (id : String) (ok : Bool) :
    HOut :=
  match mGet s.transports (id ++ "-producer") with
  | none => ⟨s, some (Reply.error "Error connecting producer transport"), [], []⟩
  | some _ =>
    if ok then ⟨s, some Reply.ok, [], []⟩
    else ⟨s, some (Reply.error "Error connecting producer transport"), [], []⟩

/-- Handler `socket.on("connectConsumerTransport", ...)`. -/
def onConnectConsumerTransport (s : ServerState) (id : String) (ok : Bool) :
    HOut :=
  match mGet s.transports (id ++ "-consumer") with
  | none => ⟨s, some (Reply.error "Error connecting consumer transport"), [], []⟩
  | some _ =>
    if ok then ⟨s, some Reply.ok, [], []⟩
    else ⟨s, some (Reply.error "Error connecting consumer transport"), [], []⟩

/-- Handler `socket.on("produce", ...)`: looks up the producer transport, drops a
pre-existing producer entry for this socket, creates the producer (fresh id
from the counter; resumed if created paused), broadcasts `newProducer` to
the other clients, stores the entry and acknowledges with the id. -/
def onProduce (s : ServerState) (id : String) (kind : MediaKind) (ok : Bool) :
    HOut :=
  let t := mGet s.transports (id ++ "-producer")
  let prods := if mHas s.producers id then mDel s.producers id else s.producers
  match t with
  | none => ⟨{ s with producers := prods },
             some (Reply.error "Error producing"), [], []⟩
  | some _ =>
    if ok then
      let pid := "p" ++ toString s.nextId
      let producer : Producer := ⟨pid, kind, false⟩
      ⟨{ s with producers := mSet prods id ⟨producer, pid⟩,
                nextId := s.nextId + 1 },
       some (Reply.okId pid), [Event.newProducer pid id], []⟩
    else
      ⟨{ s with producers := prods },
       some (Reply.error "Error producing"), [], []⟩

/-- Handler `socket.on("setRtpCapabilities", ...)`: fire-and-forget. -/
def onSetRtpCapabilities (s : ServerState) (id : String) (caps : Nat) : HOut :=
  ⟨{ s with socketCaps := mSet s.socketCaps id caps }, none, [], []⟩

/-- Handler `socket.on("consume", ...)`: drops a pre-existing consumer entry for
this socket, then requires the consumer transport, the producer named by
`pid`, the caller's stored capabilities and `router.canConsume` (modelled
by the oracle `cc`); `ok` is the success oracle for `transport.consume`.
Every failure is caught and acknowledged with an error payload. -/
def onConsume (s : ServerState) (id : String) (pid : String)
    (cc : String → Nat → Bool) (ok : Bool) : HOut :=
  let cons := if mHas s.consumers id then mDel s.consumers id else s.consumers
  let s1 := { s with consumers := cons }
  match mGet s1.transports (id ++ "-consumer") with
  | none => ⟨s1, some (Reply.error "Error consuming"), [], []⟩
  | some _ =>
    match (mValues s1.producers).find? (fun p => p.producerId == pid) with
    | none => ⟨s1, some (Reply.error "Error consuming"), [], []⟩
    | some pd =>
      match mGet s1.socketCaps id with
      | none => ⟨s1, some (Reply.error "Error consuming"), [], []⟩
      | some caps =>
        if cc pd.producer.id caps then
          if ok then
            let cid := "c" ++ toString s1.nextId
            let consumer : Consumer := ⟨cid, pd.producer.id, pd.producer.kind, false⟩
            ⟨{ s1 with consumers := mSet s1.consumers id ⟨consumer, id⟩,
                       nextId := s1.nextId + 1 },
             some (Reply.consumeData cid pid pd.producer.kind), [], []⟩
          else ⟨s1, some (Reply.error "Error consuming"), [], []⟩
        else ⟨s1, some (Reply.error "Error consuming"), [], []⟩

/-- The mutation `consumerData.consumer.resume()` in `resumeConsumer`: flips `paused`
to `false` on the first map entry whose consumer has the given id (the JS
code mutates the shared consumer object found by the search). -/
def resumeInMap (m : List (String × ConsumerEntry)) (cid : String) :
    List (String × ConsumerEntry) :=
  match m with
  | [] => []
  | (k, e) :: rest =>
    if e.consumer.id == cid then
      (k, { e with consumer := { e.consumer with paused := false } }) :: rest
    else (k, e) :: resumeInMap rest cid

/-- Handler `socket.on("resumeConsumer", ...)`: searches the values of the whole
`consumers` map for the consumer id (the caller `id` is never consulted),
resumes it and acknowledges; `ok` is the success oracle for `resume()`. -/
def onResumeConsumer (s : ServerState) (id : String) (cid : String)
    (ok : Bool) : HOut :=
  match (mValues s.consumers).find? (fun d => d.consumer.id == cid) with
  | none => ⟨s, some (Reply.error "Error resuming consumer"), [], []⟩
  | some _ =>
    if ok then
      ⟨{ s with consumers := resumeInMap s.consumers cid }, some Reply.ok, [], []⟩
    else ⟨s, some (Reply.error "Error resuming consumer"), [], []⟩

/-- Method `getPlaylistUrl()` of `HLSRecorderV2`. -/
def playlistUrl (r : Recorder) : String :=
  "/api/hls/" ++ r.streamKey ++ "/playlist.m3u8"

/-- Body of `socket.on("startHLSStream", ...)` after the `streamId`
reassignment: creates the group if absent, adds the caller to its member
set, and if some video producer exists and no recorder is attached,
constructs a recorder (incrementing the construction counter) and starts
it (`startOk` oracle).  On recorder-start failure it acknowledges with an
error; otherwise it acknowledges success and emits a `streamLive` event to
all clients. -/
def startHLSCore (s : ServerState) (id : String) (streamId : String)
    (startOk : Bool) : HOut :=
  let streams0 :=
    if mHas s.activeStreams streamId then s.activeStreams
    else mSet s.activeStreams streamId ⟨[], none⟩
  let g0 : StreamGroup := (mGet streams0 streamId).getD ⟨[], none⟩
  let g1 : StreamGroup := { g0 with streamers := sAdd g0.streamers id }
  let streams1 := mSet streams0 streamId g1
  let hasVideo :=
    (mValues s.producers).any (fun p => p.producer.kind == MediaKind.video)
  if hasVideo && g1.recorder.isNone then
    let r : Recorder := ⟨streamId, s.nextRecorderId⟩
    if startOk then
      let g2 : StreamGroup := { g1 with recorder := some r }
      ⟨{ s with activeStreams := mSet streams1 streamId g2,
                hlsRecorders := mSet s.hlsRecorders streamId r,
                nextRecorderId := s.nextRecorderId + 1 },
       some (Reply.startOk streamId (some (playlistUrl r))),
       [Event.streamLive streamId (some (playlistUrl r)) g2.streamers], []⟩
    else
      ⟨{ s with activeStreams := streams1,
                nextRecorderId := s.nextRecorderId + 1 },
       some (Reply.error "Failed to start HLS recording"), [], []⟩
  else
    ⟨{ s with activeStreams := streams1 },
     some (Reply.startOk streamId (g1.recorder.map playlistUrl)),
     [Event.streamLive streamId (g1.recorder.map playlistUrl) g1.streamers],
     []⟩

/-- The `streamId` actually used: the request's value, or a generated
`stream_<Date.now()>` name when the argument is missing or falsy (the
empty string is falsy in JavaScript). -/
def resolveStreamId (streamIdArg : Option String) (now : Nat) : String :=
  match streamIdArg with
  | none => "stream_" ++ toString now
  | some sid => if sid == "" then "stream_" ++ toString now else sid

def onStartHLSStream (s : ServerState) (id : String)
    (streamIdArg : Option String) (now : Nat) (startOk : Bool) : HOut :=
  startHLSCore s id (resolveStreamId streamIdArg now) startOk

/-- Handler `socket.on("stopHLSStream", ...)`: removes the caller from the group's
member set; when the set becomes empty and a recorder is attached, stops
the recorder, deletes the group (and its `hlsRecorders` entry) and emits
`streamEnded`; always acknowledges `{success: true}`. -/
def onStopHLSStream (s : ServerState) (id : String) (streamId : String) :
    HOut :=
  match mGet s.activeStreams streamId with
  | none => ⟨s, some Reply.ok, [], []⟩
  | some g =>
    let g1 : StreamGroup := { g with streamers := sDel g.streamers id }
    match g1.recorder with
    | some r =>
      if g1.streamers.isEmpty then
        ⟨{ s with activeStreams := mDel s.activeStreams streamId,
                  hlsRecorders := mDel s.hlsRecorders streamId },
         some Reply.ok, [Event.streamEnded streamId], [r.rid]⟩
      else
        ⟨{ s with activeStreams := mSet s.activeStreams streamId g1 },
         some Reply.ok, [], []⟩
    | none =>
      ⟨{ s with activeStreams := mSet s.activeStreams streamId g1 },
       some Reply.ok, [], []⟩

/-- Result of the `for (const [streamId, stream] of activeStreams)` loop in
the disconnect handler: the surviving `activeStreams` entries, the keys
deleted from `hlsRecorders`, the events emitted and the recorders whose
`stopRecording()` was invoked. -/
structure DiscOut where
  streams : List (String × StreamGroup)
  dels : List String
  events : List Event
  stops : List Nat
deriving DecidableEq

def discLoop (id : String) (l : List (String × StreamGroup)) : DiscOut :=
  match l with
  | [] => ⟨[], [], [], []⟩
  | (sid, g) :: rest =>
    let tail := discLoop id rest
    if sHas g.streamers id then
      let g1 : StreamGroup := { g with streamers := sDel g.streamers id }
      match g1.recorder with
      | some r =>
        if g1.streamers.isEmpty then
          ⟨tail.streams, sid :: tail.dels,
           Event.streamEnded sid :: tail.events, r.rid :: tail.stops⟩
        else
          ⟨(sid, g1) :: tail.streams, tail.dels, tail.events, tail.stops⟩
      | none =>
        ⟨(sid, g1) :: tail.streams, tail.dels, tail.events, tail.stops⟩
    else
      ⟨(sid, g) :: tail.streams, tail.dels, tail.events, tail.stops⟩

/-- Handler `socket.on("disconnect", ...)`: deletes this socket's entries from
`producers`, `transports` (both role keys) and `consumers`, then walks
`activeStreams` removing the socket from member sets and tearing down
groups that became empty while a recorder was attached. -/
def onDisconnect (s : ServerState) (id : String) : HOut :=
  let s1 := { s with
    producers := mDel s.producers id,
    transports := mDel (mDel s.transports (id ++ "-producer")) (id ++ "-consumer"),
    consumers := mDel s.consumers id }
  let d := discLoop id s1.activeStreams
  ⟨{ s1 with activeStreams := d.streams,
             hlsRecorders := d.dels.foldl (fun m k => mDel m k) s1.hlsRecorders },
   none, d.events, d.stops⟩

/-! ### The recording bridge (`HLSRecorderV2` in `ffmpeg-recorder-v2.ts`) -/

/-- The private fields of an `HLSRecorderV2` instance (handles are modelled
by their identities). -/
structure RecorderState where
  isRecording : Bool
  ffmpegProcess : Option Nat
  consumer : Option Nat
  transport : Option Nat
deriving DecidableEq

/-- Side effects performed by `cleanup()` on the owned resources. -/
inductive RecAction where
  | killProcess (p : Nat)
  | closeConsumer (c : Nat)
  | closeTransport (t : Nat)
deriving DecidableEq

/-- Method `cleanup()` of `HLSRecorderV2`: clears `isRecording`, kills the subprocess
if still alive, closes the tap consumer and the tap transport if present,
and nulls all three fields. -/
def cleanup (s : RecorderState) : RecorderState × List RecAction :=
  let aP := match s.ffmpegProcess with
    | some p => [RecAction.killProcess p]
    | none => []
  let aC := match s.consumer with
    | some c => [RecAction.closeConsumer c]
    | none => []
  let aT := match s.transport with
    | some t => [RecAction.closeTransport t]
    | none => []
  (⟨false, none, none, none⟩, aP ++ aC ++ aT)

/-- Method `stopRecording()` of `HLSRecorderV2`: logs and calls `cleanup()`. -/
def stopRecording (s : RecorderState) : RecorderState × List RecAction :=
  cleanup s

/-- Method `isActive()` of `HLSRecorderV2`. -/
def isActive (s : RecorderState) : Bool :=
  s.isRecording

/-- The synchronous part of `HLSRecorderV2.startRecording`: early return
when already recording; otherwise pick the video producers, create the
plain tap transport (`transportOk` oracle) and the paused tap consumer
(`consumeOk` oracle), and spawn ffmpeg.  Any throw is caught by the `catch`
block, which runs `cleanup()` and rethrows; the returned `Bool` is `true`
exactly when the call threw. -/
def startRecordingStep (s : RecorderState) (videoProducerIds : List String)
    (transportOk : Bool) (consumeOk : Bool) (tid cid pid : Nat) :
    RecorderState × List RecAction × Bool :=
  if s.isRecording then (s, [], false)
  else if videoProducerIds.isEmpty then
    let r := cleanup s
    (r.1, r.2, true)
  else if !transportOk then
    let r := cleanup s
    (r.1, r.2, true)
  else
    let s1 := { s with transport := some tid }
    if !consumeOk then
      let r := cleanup s1
      (r.1, r.2, true)
    else
      (⟨s1.isRecording, some pid, some cid, s1.transport⟩, [], false)

/-- The delayed `setTimeout` continuation of `startRecording`: connect the
tap transport and resume the tap consumer (success oracle); on success the
bridge becomes recording, on failure it calls `stopRecording()`. -/
def delayedSetup (s : RecorderState) (connectResumeOk : Bool) :
    RecorderState × List RecAction :=
  if connectResumeOk then ({ s with isRecording := true }, [])
  else stopRecording s

/-! ### The HLS playback route (`src/app/api/hls/[...path]/route.ts`) -/

/-- Node `path.join` segment normalization: empty and `.` segments are
dropped, `..` removes the previous segment (and is dropped at the root of
an absolute path). -/
def normSegs (parts : List String) : List String :=
  parts.foldl
    (fun acc seg =>
      if seg == "" || seg == "." then acc
      else if seg == ".." then acc.dropLast
      else acc ++ [seg])
    []

/-- Render an absolute path from its segments, as Node does. -/
def pathStr (segs : List String) : String :=
  segs.foldl (fun a b => a ++ "/" ++ b) ""

/-- The root `path.join(cwd, 'public', 'hls')`, with `cwd` given as
normalized segments. -/
def hlsRoot (cwd : List String) : List String :=
  cwd ++ ["public", "hls"]

/-- Node `path.extname` on a file name: the suffix from the last dot, or
`""` when there is no dot or the only dot is leading. -/
def extname (name : String) : String :=
  let rev := name.data.reverse
  let pre := rev.takeWhile (fun c => c != '.')
  if pre.length == rev.length then ""
  else if pre.length + 1 == rev.length then ""
  else String.mk ('.' :: pre.reverse)

/-- JavaScript `String.prototype.startsWith`: `p` is a prefix of the
character sequence of `s`. -/
def strStartsWith (s p : String) : Bool :=
  p.data.isPrefixOf s.data

/-- The last path segment (Node `path.extname` only looks at the base
name). -/
def lastSeg (segs : List String) : String :=
  (segs.getLast?).getD ""

/-- The `Content-Type` header chosen by the route for a given extension. -/
def contentTypeFor (ext : String) : Option String :=
  if ext == ".m3u8" then some "application/vnd.apple.mpegurl"
  else if ext == ".ts" then some "video/mp2t"
  else none

/-- Responses of the HLS playback handler. -/
inductive HlsResponse where
  | badRequest
  | forbidden
  | notFound
  | serve (contentType : Option String) (cacheControl : String)
      (file : List String)
deriving DecidableEq

/-- The route handler: joins the request segments under the HLS root,
rejects with 403 when the joined path does not start (as a string) with the
root path, 404s when the file does not exist (`fsExists` oracle), and
otherwise serves the file with extension-based content type and caching
disabled. -/
def hlsHandler (cwd : List String) (hlsPath : Option (List String))
    (fsExists : List String → Bool) : HlsResponse :=
  match hlsPath with
  | none => HlsResponse.badRequest
  | some parts =>
    let root := hlsRoot cwd
    let filePath := normSegs (root ++ parts)
    if !(strStartsWith (pathStr filePath) (pathStr root)) then
      HlsResponse.forbidden
    else if !(fsExists filePath) then HlsResponse.notFound
    else
      HlsResponse.serve (contentTypeFor (extname (lastSeg filePath)))
        "no-cache, no-store, must-revalidate" filePath

/-! ### Map lemmas -/

theorem mGet_mDel_self {α : Type} (m : List (String × α)) (k : String) :
    mGet (mDel m k) k = none := by
  induction m with
  | nil => rfl
  | cons hd tl ih =>
    rcases hd with ⟨k', v⟩
    simp only [mDel]
    by_cases h : (k' == k) = true
    · simp [h, ih]
    · simp only [Bool.not_eq_true] at h
      simp [mGet, h, ih]

theorem mGet_mDel_ne {α : Type} (m : List (String × α)) (kd k : String)
    (h : ¬ k = kd) : mGet (mDel m kd) k = mGet m k := by
  induction m with
  | nil => rfl
  | cons hd tl ih =>
    rcases hd with ⟨k', v⟩
    simp only [mDel, mGet]
    by_cases h1 : (k' == kd) = true
    · have h2 : (k' == k) = false := by
        simp only [beq_iff_eq] at h1
        subst h1
        simpa [beq_eq_false_iff_ne] using fun hk => h hk.symm
      simp [h1, h2, mGet, ih]
    · simp only [Bool.not_eq_true] at h1
      by_cases h2 : (k' == k) = true
      · simp [h1, h2, mGet]
      · simp only [Bool.not_eq_true] at h2
        simp [h1, h2, mGet, ih]

theorem mGet_mSet_self {α : Type} (m : List (String × α)) (k : String)
    (v : α) : mGet (mSet m k v) k = some v := by
  induction m with
  | nil => simp [mSet, mGet]
  | cons hd tl ih =>
    rcases hd with ⟨k', v'⟩
    simp only [mSet]
    by_cases h : (k' == k) = true
    · simp [h, mGet]
    · simp only [Bool.not_eq_true] at h
      simp [h, mGet, ih]

theorem producerKey_ne_consumerKey (id : String) :
    ¬ (id ++ "-consumer") = (id ++ "-producer") := by
  intro h
  have h2 : (id ++ "-consumer").data = (id ++ "-producer").data := by rw [h]
  rw [String.data_append, String.data_append] at h2
  have h3 := List.append_cancel_left h2
  simp at h3

theorem mGet_some_mem_keys {α : Type} (m : List (String × α)) (k : String)
    (v : α) (h : mGet m k = some v) : k ∈ m.map Prod.fst := by
  induction m with
  | nil => simp [mGet] at h
  | cons hd tl ih =>
    rcases hd with ⟨k', v'⟩
    simp only [mGet] at h
    by_cases h1 : (k' == k) = true
    · simp only [beq_iff_eq] at h1
      simp [h1]
    · simp only [Bool.not_eq_true] at h1
      simp only [h1, Bool.false_eq_true, if_false] at h
      simp [ih h]

/-! ### C2: registries after disconnect -/

/-- C2 (amended): after a client disconnects, no entry keyed by that
client's id remains in the `producers`, `consumers` or `transports`
registries (both the producer-role and the consumer-role key). -/
theorem c2_registry_cleanup (s : ServerState) (id : String) :
    mGet (onDisconnect s id).st.producers id = none ∧
    mGet (onDisconnect s id).st.consumers id = none ∧
    mGet (onDisconnect s id).st.transports (id ++ "-producer") = none ∧
    mGet (onDisconnect s id).st.transports (id ++ "-consumer") = none := by
  refine ⟨?_, ?_, ?_, ?_⟩
  · simp [onDisconnect, mGet_mDel_self]
  · simp [onDisconnect, mGet_mDel_self]
  · show mGet (mDel (mDel s.transports (id ++ "-producer")) (id ++ "-consumer"))
        (id ++ "-producer") = none
    rw [mGet_mDel_ne _ _ _ (fun h => producerKey_ne_consumerKey id h.symm)]
    exact mGet_mDel_self _ _
  · exact mGet_mDel_self _ _

/-- The state just before client A's disconnect in the C2 counterexample
trace: A created a producer transport and produced a video producer
(`p2`); B created a consumer transport, declared capabilities and consumed
A's producer (consumer `c3`). -/
def c2Before : ServerState :=
  (onConsume
    (onProduce
      (onSetRtpCapabilities
        (onCreateConsumerTransport
          (onCreateProducerTransport emptyState "A" true).st "B" true).st
        "B" 7).st
      "A" MediaKind.video true).st
    "B" "p2" (fun _ _ => true) true).st

/-- The state after client A then disconnects. -/
def c2Final : ServerState := (onDisconnect c2Before "A").st

/-- C2 counterexample: before the disconnect, producer `p2` belongs to
client A; after A disconnects, A's own entries are gone but client B's
consumer record referencing A's producer `p2` survives in the `consumers`
registry — refuting the claim that no consumer record referencing one of
the disconnecting client's producers survives in another client's entry. -/
theorem c2_counterexample :
    mGet c2Before.producers "A"
      = some ⟨⟨"p2", MediaKind.video, false⟩, "p2"⟩ ∧
    mGet c2Final.producers "A" = none ∧
    mGet c2Final.consumers "B"
      = some ⟨⟨"c3", "p2", MediaKind.video, false⟩, "B"⟩ := by
  decide

/-! ### C3: events emitted by the disconnect handler -/

def isStreamEnded (e : Event) : Bool :=
  match e with
  | Event.streamEnded _ => true
  | _ => false

theorem discLoop_events_all (id : String) (l : List (String × StreamGroup)) :
    ((discLoop id l).events).all isStreamEnded = true := by
  induction l with
  | nil => rfl
  | cons hd tl ih =>
    rcases hd with ⟨sid, g⟩
    simp only [discLoop]
    by_cases h1 : sHas g.streamers id = true
    · simp only [h1, if_true]
      cases hr : ({ g with streamers := sDel g.streamers id } : StreamGroup).recorder with
      | some r =>
        simp only [hr]
        by_cases h2 : (sDel g.streamers id).isEmpty = true
        · simp [h2, List.all_cons, isStreamEnded, ih]
        · simp only [Bool.not_eq_true] at h2
          simp [h2, ih]
      | none => simp only [hr]; exact ih
    · simp only [Bool.not_eq_true] at h1
      simp [h1, ih]

/-- C3 (amended): on every client disconnect, registry cleanup and
stream-membership cleanup run, but no "producer gone" notification is ever
broadcast — the only events a disconnect can emit are `streamEnded`
events. -/
theorem c3_no_producer_gone (s : ServerState) (id : String) :
    ((onDisconnect s id).events).all isStreamEnded = true := by
  simpa [onDisconnect] using discLoop_events_all id s.activeStreams

/-- A state in which the disconnecting client owns a producer. -/
def c3State : ServerState :=
  { emptyState with
    producers := [("A", ⟨⟨"p0", MediaKind.video, false⟩, "p0"⟩)] }

/-- C3 counterexample: client A owns producer `p0`, yet A's disconnect
emits no event at all — in particular no "producer gone" notification for
`p0`, refuting the claim that one is broadcast for each producer of the
disconnecting client. -/
theorem c3_counterexample :
    mGet c3State.producers "A"
      = some ⟨⟨"p0", MediaKind.video, false⟩, "p0"⟩ ∧
    (onDisconnect c3State "A").events = [] := by
  decide

/-! ### C4: handlers that never reply -/

/-- C4 (code bug): the `rtpCapabilities` handler invoked while the router
is not initialized returns without calling the acknowledgment callback
(and changes nothing), and the `healthCheck` handler never calls its
callback at all — so these requests leave the client awaiting a reply
forever, contradicting the requirement that every failure path produces a
reply. -/
theorem c4_silent_reply_paths (s : ServerState) :
    (onRtpCapabilities none s).reply = none ∧
    (onRtpCapabilities none s).st = s ∧
    (onHealthCheck s).reply = none := by
  exact ⟨rfl, rfl, rfl⟩

/-! ### C1: no second recorder while one is attached -/

/-- C1: a `startHLSStream` request naming a stream key whose group already
has an attached recorder constructs no new recorder (the construction
counter is unchanged and `hlsRecorders` is untouched), leaves the existing
recorder attached to the group, and acknowledges success with that
recorder's playlist URL. -/
theorem c1_no_second_recorder (s : ServerState) (id key : String) (now : Nat)
    (startOk : Bool) (g : StreamGroup) (r : Recorder)
    (hkey : ¬ key = "")
    (hg : mGet s.activeStreams key = some g)
    (hr : g.recorder = some r) :
    (onStartHLSStream s id (some key) now startOk).st.nextRecorderId
        = s.nextRecorderId ∧
    (onStartHLSStream s id (some key) now startOk).st.hlsRecorders
        = s.hlsRecorders ∧
    mGet (onStartHLSStream s id (some key) now startOk).st.activeStreams key
        = some { g with streamers := sAdd g.streamers id } ∧
    ({ g with streamers := sAdd g.streamers id } : StreamGroup).recorder
        = some r ∧
    (onStartHLSStream s id (some key) now startOk).reply
        = some (Reply.startOk key (some (playlistUrl r))) := by
  have h1 : (key == "") = false := by
    simpa [beq_eq_false_iff_ne] using hkey
  have hres : resolveStreamId (some key) now = key := by
    simp [resolveStreamId, h1]
  have h2 : mHas s.activeStreams key = true := by simp [mHas, hg]
  simp only [onStartHLSStream, hres, startHLSCore, h2, if_true, hg,
    Option.getD_some]
  simp [hr, mGet_mSet_self]

/-- A state whose group "k" already has recorder 0 attached and a video
producer present. -/
def c1State : ServerState :=
  { emptyState with
    producers := [("A", ⟨⟨"p0", MediaKind.video, false⟩, "p0"⟩)],
    activeStreams := [("k", ⟨["A"], some ⟨"k", 0⟩⟩)],
    hlsRecorders := [("k", ⟨"k", 0⟩)],
    nextRecorderId := 1 }

/-- C1 witness: in `c1State` a second `startHLSStream` for key "k" leaves
the construction counter at 1 and keeps recorder ⟨"k", 0⟩ attached. -/
theorem c1_witness :
    (onStartHLSStream c1State "B" (some "k") 0 true).st.nextRecorderId = 1 ∧
    mGet (onStartHLSStream c1State "B" (some "k") 0 true).st.activeStreams "k"
      = some ⟨["A", "B"], some ⟨"k", 0⟩⟩ := by
  have h := c1_no_second_recorder c1State "B" "k" 0 true
    ⟨["A"], some ⟨"k", 0⟩⟩ ⟨"k", 0⟩ (by decide) (by decide) rfl
  exact ⟨h.1, h.2.2.1⟩

/-! ### C5: when `streamLive` fires -/

/-- C5 counterexample: a `startHLSStream` request on a fresh server (no
producers at all) leaves the group "k" in the no-recorder state, yet a
`streamLive` event is emitted — refuting the claim that the event fires
exactly when the group newly acquires a recorder and never when the
request leaves the group without one. -/
theorem c5_counterexample :
    mGet (onStartHLSStream emptyState "A" (some "k") 0 true).st.activeStreams "k"
      = some ⟨["A"], none⟩ ∧
    (onStartHLSStream emptyState "A" (some "k") 0 true).events
      = [Event.streamLive "k" none ["A"]] := by
  decide

/-- C5 (amended): a `streamLive` event is broadcast after every
`startHLSStream` request that does not fail — including requests that
leave the group without a recorder and requests that find a recorder
already attached — and each such request emits it exactly once; a failed
request (recorder start failure) emits no event. -/
theorem c5_stream_live_on_every_success (s : ServerState) (id : String)
    (arg : Option String) (now : Nat) (ok : Bool) :
    (∃ msg, (onStartHLSStream s id arg now ok).reply = some (Reply.error msg) ∧
        (onStartHLSStream s id arg now ok).events = []) ∨
    (∃ sid url members,
        (onStartHLSStream s id arg now ok).reply
          = some (Reply.startOk sid url) ∧
        (onStartHLSStream s id arg now ok).events
          = [Event.streamLive sid url members]) := by
  simp only [onStartHLSStream, startHLSCore]
  generalize resolveStreamId arg now = sid
  repeat' split
  all_goals
    first
      | exact Or.inl ⟨_, rfl, rfl⟩
      | exact Or.inr ⟨_, _, _, rfl, rfl⟩

/-! ### C6: stopping a broadcast -/

/-- C6: for a group with an attached recorder, a `stopHLSStream` request
from the last remaining member stops the recorder, deletes the group and
its `hlsRecorders` entry and emits `streamEnded`; a request from a caller
while some other member remains only removes the caller from the member
set and neither stops the recorder nor deletes the group. -/
theorem c6_stop_broadcast (s : ServerState) (key id : String)
    (g : StreamGroup) (r : Recorder)
    (hg : mGet s.activeStreams key = some g)
    (hr : g.recorder = some r) :
    (g.streamers = [id] →
      (onStopHLSStream s id key).stops = [r.rid] ∧
      mGet (onStopHLSStream s id key).st.activeStreams key = none ∧
      mGet (onStopHLSStream s id key).st.hlsRecorders key = none ∧
      (onStopHLSStream s id key).events = [Event.streamEnded key]) ∧
    (∀ o, o ∈ g.streamers → ¬ o = id →
      (onStopHLSStream s id key).stops = [] ∧
      mGet (onStopHLSStream s id key).st.activeStreams key
        = some { g with streamers := sDel g.streamers id } ∧
      ({ g with streamers := sDel g.streamers id } : StreamGroup).recorder
        = some r ∧
      (onStopHLSStream s id key).st.hlsRecorders = s.hlsRecorders ∧
      (onStopHLSStream s id key).events = []) := by
  have hrec : ({ g with streamers := sDel g.streamers id } : StreamGroup).recorder
      = some r := hr
  constructor
  · intro hlast
    have hempty : (sDel g.streamers id).isEmpty = true := by
      simp [hlast, sDel]
    simp [onStopHLSStream, hg, hr, hempty, mGet_mDel_self]
  · intro o ho hne
    have hmem : o ∈ sDel g.streamers id := by
      simp [sDel, List.mem_filter, ho, hne]
    have hempty : (sDel g.streamers id).isEmpty = false := by
      cases hsd : sDel g.streamers id with
      | nil => rw [hsd] at hmem; simp at hmem
      | cons a l => rfl
    simp [onStopHLSStream, hg, hr, hempty, mGet_mSet_self]

/-- A state whose group "k" has two members and recorder ⟨"k", 3⟩. -/
def c6State : ServerState :=
  { emptyState with
    activeStreams := [("k", ⟨["A", "B"], some ⟨"k", 3⟩⟩)],
    hlsRecorders := [("k", ⟨"k", 3⟩)] }

/-- C6 witness: member A of the two-member group "k" stops the broadcast;
the recorder is not stopped and the group survives with member B and the
recorder still attached. -/
theorem c6_witness :
    (onStopHLSStream c6State "A" "k").stops = [] ∧
    mGet (onStopHLSStream c6State "A" "k").st.activeStreams "k"
      = some ⟨["B"], some ⟨"k", 3⟩⟩ := by
  have h := (c6_stop_broadcast c6State "k" "A"
    ⟨["A", "B"], some ⟨"k", 3⟩⟩ ⟨"k", 3⟩ rfl rfl).2 "B" (by decide) (by decide)
  exact ⟨h.1, h.2.1⟩

/-! ### C7: consume with incompatible capabilities -/

/-- C7: a `consume` request for a producer for which `router.canConsume`
is false (kind incompatible with the requester's declared capabilities) is
acknowledged with an error, and no consumer record for the requester is in
the registry afterwards (so none was added); entries of other clients are
untouched. -/
theorem c7_consume_incompatible (s : ServerState) (id pid : String)
    (cc : String → Nat → Bool) (ok : Bool) (t : Transport)
    (pd : ProducerEntry) (caps : Nat)
    (ht : mGet s.transports (id ++ "-consumer") = some t)
    (hp : (mValues s.producers).find? (fun p => p.producerId == pid) = some pd)
    (hc : mGet s.socketCaps id = some caps)
    (hcc : cc pd.producer.id caps = false) :
    (onConsume s id pid cc ok).reply = some (Reply.error "Error consuming") ∧
    mGet (onConsume s id pid cc ok).st.consumers id = none ∧
    ∀ k, ¬ k = id →
      mGet (onConsume s id pid cc ok).st.consumers k = mGet s.consumers k := by
  have hout : onConsume s id pid cc ok
      = ⟨{ s with consumers :=
            if mHas s.consumers id then mDel s.consumers id else s.consumers },
         some (Reply.error "Error consuming"), [], []⟩ := by
    simp [onConsume, ht, hp, hc, hcc]
  refine ⟨by rw [hout], ?_, ?_⟩
  · rw [hout]
    by_cases hhas : mHas s.consumers id = true
    · simp [hhas, mGet_mDel_self]
    · simp only [Bool.not_eq_true] at hhas
      simp only [hhas, Bool.false_eq_true, if_false]
      simpa [mHas, Option.isSome_iff_exists] using hhas
  · intro k hk
    rw [hout]
    by_cases hhas : mHas s.consumers id = true
    · simp [hhas, mGet_mDel_ne _ _ _ hk]
    · simp only [Bool.not_eq_true] at hhas
      simp [hhas]

/-- A state in which B has a consumer transport and declared capabilities,
and A owns the video producer `p1`. -/
def c7State : ServerState :=
  { emptyState with
    transports := [("B-consumer", ⟨"t0"⟩)],
    producers := [("A", ⟨⟨"p1", MediaKind.video, false⟩, "p1"⟩)],
    socketCaps := [("B", 5)] }

/-- C7 witness: in `c7State`, with `canConsume` reporting false, B's
consume request for `p1` is answered with an error and B has no consumer
record afterwards. -/
theorem c7_witness :
    (onConsume c7State "B" "p1" (fun _ _ => false) true).reply
      = some (Reply.error "Error consuming") ∧
    mGet (onConsume c7State "B" "p1" (fun _ _ => false) true).st.consumers "B"
      = none := by
  have h := c7_consume_incompatible c7State "B" "p1" (fun _ _ => false) true
    ⟨"t0"⟩ ⟨⟨"p1", MediaKind.video, false⟩, "p1"⟩ 5
    (by decide) (by decide) (by decide) rfl
  exact ⟨h.1, h.2.1⟩

/-! ### C8: the recording bridge's stop/cleanup -/

/-- C8: stopping the bridge is idempotent (a second stop changes nothing
and performs no further release actions); any stop leaves the bridge
inactive with all three owned resources cleared, releasing the tap
consumer and tap transport and killing the subprocess whenever they are
present; the delayed-connect failure path is exactly a stop; and every
throwing path of `startRecording` leaves the bridge in the fully cleaned,
inactive state. -/
theorem c8_bridge_stop (s : RecorderState) (vids : List String)
    (tOk cOk : Bool) (tid cid pid : Nat) :
    stopRecording (stopRecording s).1 = ((stopRecording s).1, []) ∧
    isActive (stopRecording s).1 = false ∧
    (stopRecording s).1.consumer = none ∧
    (stopRecording s).1.transport = none ∧
    (stopRecording s).1.ffmpegProcess = none ∧
    (∀ p, s.ffmpegProcess = some p →
        RecAction.killProcess p ∈ (stopRecording s).2) ∧
    (∀ c, s.consumer = some c →
        RecAction.closeConsumer c ∈ (stopRecording s).2) ∧
    (∀ t, s.transport = some t →
        RecAction.closeTransport t ∈ (stopRecording s).2) ∧
    delayedSetup s false = stopRecording s ∧
    ((startRecordingStep s vids tOk cOk tid cid pid).2.2 = true →
        (startRecordingStep s vids tOk cOk tid cid pid).1
          = ⟨false, none, none, none⟩) := by
  refine ⟨rfl, rfl, rfl, rfl, rfl, ?_, ?_, ?_, rfl, ?_⟩
  · intro p hp
    simp [stopRecording, cleanup, hp]
  · intro c hc
    simp [stopRecording, cleanup, hc]
  · intro t ht
    simp [stopRecording, cleanup, ht]
  · intro hthrew
    simp only [startRecordingStep] at hthrew ⊢
    by_cases h1 : s.isRecording = true
    · rw [if_pos h1] at hthrew
      simp at hthrew
    · rw [if_neg h1] at hthrew ⊢
      by_cases h2 : vids.isEmpty = true
      · rw [if_pos h2]
        simp [cleanup]
      · rw [if_neg h2] at hthrew ⊢
        by_cases h3 : (!tOk) = true
        · rw [if_pos h3]
          simp [cleanup]
        · rw [if_neg h3] at hthrew ⊢
          by_cases h4 : (!cOk) = true
          · rw [if_pos h4]
            simp [cleanup]
          · rw [if_neg h4] at hthrew
            simp at hthrew

/-- A bridge state that is recording with subprocess 1, tap consumer 2 and
tap transport 3 alive. -/
def c8State : RecorderState := ⟨true, some 1, some 2, some 3⟩

/-- C8 witness: stopping `c8State` kills the subprocess, closes the tap
consumer and transport, deactivates the bridge, and a second stop is a
no-op. -/
theorem c8_witness :
    isActive (stopRecording c8State).1 = false ∧
    RecAction.killProcess 1 ∈ (stopRecording c8State).2 ∧
    RecAction.closeConsumer 2 ∈ (stopRecording c8State).2 ∧
    RecAction.closeTransport 3 ∈ (stopRecording c8State).2 ∧
    stopRecording (stopRecording c8State).1 = ((stopRecording c8State).1, []) := by
  have h := c8_bridge_stop c8State [] true true 0 0 0
  exact ⟨h.2.1, h.2.2.2.2.2.1 1 rfl, h.2.2.2.2.2.2.1 2 rfl,
    h.2.2.2.2.2.2.2.1 3 rfl, h.1⟩

/-! ### C9: the playback route's path check -/

/-- C9 (code bug): the route's security check is a string-prefix test
against the root without a trailing separator.  The request path
`["..", "hlsx", "a.ts"]` resolves to `<cwd>/public/hlsx/a.ts`, which is
outside the HLS root `<cwd>/public/hls` (not a segment-prefix of it), yet
the request is served rather than rejected with Forbidden.  An in-root
request is served with extension-based content type and caching disabled,
as the claim says. -/
theorem c9_prefix_check_bypass :
    hlsHandler ["app"] (some ["..", "hlsx", "a.ts"])
        (fun p => p == ["app", "public", "hlsx", "a.ts"])
      = HlsResponse.serve (some "video/mp2t")
          "no-cache, no-store, must-revalidate"
          ["app", "public", "hlsx", "a.ts"] ∧
    (hlsRoot ["app"]).isPrefixOf
        (normSegs (hlsRoot ["app"] ++ ["..", "hlsx", "a.ts"])) = false ∧
    hlsHandler ["app"] (some ["k", "playlist.m3u8"])
        (fun p => p == ["app", "public", "hls", "k", "playlist.m3u8"])
      = HlsResponse.serve (some "application/vnd.apple.mpegurl")
          "no-cache, no-store, must-revalidate"
          ["app", "public", "hls", "k", "playlist.m3u8"] := by
  exact ⟨by decide, by decide, by decide⟩

/-! ### C10: resumeConsumer resolves across all clients -/

theorem resumeInMap_keys (m : List (String × ConsumerEntry)) (cid : String) :
    (resumeInMap m cid).map Prod.fst = m.map Prod.fst := by
  induction m with
  | nil => rfl
  | cons hd tl ih =>
    rcases hd with ⟨k, e⟩
    simp only [resumeInMap]
    by_cases h : (e.consumer.id == cid) = true
    · simp [h]
    · simp only [Bool.not_eq_true] at h
      simp [h, ih]

theorem resumeInMap_found (m : List (String × ConsumerEntry)) (cid : String)
    (hkeys : (m.map Prod.fst).Nodup)
    (hex : ∃ e, e ∈ mValues m ∧ e.consumer.id = cid) :
    ∃ k e', mGet (resumeInMap m cid) k = some e' ∧
      e'.consumer.id = cid ∧ e'.consumer.paused = false := by
  induction m with
  | nil =>
    rcases hex with ⟨e, he, _⟩
    simp [mValues] at he
  | cons hd tl ih =>
    rcases hd with ⟨k0, e0⟩
    by_cases h0 : (e0.consumer.id == cid) = true
    · refine ⟨k0, { e0 with consumer := { e0.consumer with paused := false } },
        ?_, ?_, rfl⟩
      · simp [resumeInMap, h0, mGet]
      · simpa [beq_iff_eq] using h0
    · have h0' : ¬ e0.consumer.id = cid := by
        simpa [beq_iff_eq] using h0
      have hex' : ∃ e, e ∈ mValues tl ∧ e.consumer.id = cid := by
        rcases hex with ⟨e, he, hid⟩
        rcases (by simpa [mValues] using he : e = e0 ∨ e ∈ mValues tl) with
          he0 | htl
        · exact absurd hid (he0 ▸ h0')
        · exact ⟨e, htl, hid⟩
      have hkeys' : (tl.map Prod.fst).Nodup := hkeys.of_cons
      rcases ih hkeys' hex' with ⟨k, e', hk, hid, hp⟩
      refine ⟨k, e', ?_, hid, hp⟩
      have hkmem : k ∈ (resumeInMap tl cid).map Prod.fst :=
        mGet_some_mem_keys _ _ _ hk
      rw [resumeInMap_keys] at hkmem
      have hk0 : ¬ (k0 == k) = true := by
        simp only [beq_iff_eq]
        intro hEq
        subst hEq
        exact (List.nodup_cons.mp hkeys).1 hkmem
      simp only [Bool.not_eq_true] at h0 hk0
      simpa [resumeInMap, h0, mGet, hk0] using hk

/-- C10: when some client's registry entry holds a consumer with id `cid`
(the handler's search over all values finds it), a `resumeConsumer`
request succeeds for every requesting client — the handler performs no
ownership check, and its entire result is independent of the caller — and
afterwards the found consumer is unpaused in whichever client's entry it
lives. -/
theorem c10_resume_cross_client (s : ServerState) (cid : String)
    (e : ConsumerEntry)
    (hkeys : (s.consumers.map Prod.fst).Nodup)
    (hfind : (mValues s.consumers).find? (fun d => d.consumer.id == cid)
      = some e) :
    (∀ caller, (onResumeConsumer s caller cid true).reply = some Reply.ok) ∧
    (∀ c1 c2, onResumeConsumer s c1 cid true
      = onResumeConsumer s c2 cid true) ∧
    (∀ caller, ∃ k e',
      mGet (onResumeConsumer s caller cid true).st.consumers k = some e' ∧
      e'.consumer.id = cid ∧ e'.consumer.paused = false) := by
  refine ⟨?_, ?_, ?_⟩
  · intro caller
    simp [onResumeConsumer, hfind]
  · intro c1 c2
    rfl
  · intro caller
    have hmem : e ∈ mValues s.consumers := List.mem_of_find?_eq_some hfind
    have hid : e.consumer.id = cid := by
      have := List.find?_some hfind
      simpa [beq_iff_eq] using this
    have hres : (onResumeConsumer s caller cid true).st.consumers
        = resumeInMap s.consumers cid := by
      simp [onResumeConsumer, hfind]
    rw [hres]
    exact resumeInMap_found s.consumers cid hkeys ⟨e, hmem, hid⟩

/-- A state in which client B's registry entry holds the paused consumer
`c9`. -/
def c10State : ServerState :=
  { emptyState with
    consumers := [("B", ⟨⟨"c9", "p1", MediaKind.video, true⟩, "B"⟩)] }

/-- C10 witness: client Z — not the owner B — successfully resumes
consumer `c9`, which is unpaused afterwards. -/
theorem c10_witness :
    (onResumeConsumer c10State "Z" "c9" true).reply = some Reply.ok ∧
    ∃ k e', mGet (onResumeConsumer c10State "Z" "c9" true).st.consumers k
        = some e' ∧ e'.consumer.paused = false := by
  have h := c10_resume_cross_client c10State "c9"
    ⟨⟨"c9", "p1", MediaKind.video, true⟩, "B"⟩ (by decide) (by decide)
  refine ⟨h.1 "Z", ?_⟩
  rcases h.2.2 "Z" with ⟨k, e', h1, _, h3⟩
  exact ⟨k, e', h1, h3⟩

end WebrtcHLS
